import Mathlib

/-!
Formal model of the Yaesu FT-991A CAT control layer (`src/ft991a/cat.py`),
shallowly embedded in Lean 4.

Wire traffic is modelled as lists of characters.  The serial channel is a
`SerialPort` record: an open/closed flag, a script `rx` of bytes the radio
will deliver (reads past the end of the script time out, which is how the
source's `serial.read(1)` returning `b''` is modelled), and a log `tx` of
the commands written so far.  The session object `FT991AState` mirrors the
Python `FT991A` instance attributes together with an explicit model clock
`now` (rationals, in seconds).  `time.sleep(d)` advances the clock by
exactly `d` and all other steps are instantaneous, so recorded times are
the minimal wall-clock times the source can realise.

Python exceptions are modelled with `Except`: an `.error` carries the
error kind together with the object state at the raise point, so that
"no bytes were written" is expressible as the state being unchanged.
-/

namespace FT991A

/-- Operating modes: the `Mode` enum of the source (MD command parameter). -/
inductive Mode where
  | LSB | USB | CW | FM | AM | RTTY_LSB | CW_R | DATA_LSB
  | RTTY_USB | DATA_FM | FM_N | DATA_USB | AM_N | C4FM
deriving DecidableEq

/-- Wire code of each mode: the (single-character) string value of the
Python enum member. -/
def modeValue : Mode → Char
  | .LSB => '1'
  | .USB => '2'
  | .CW => '3'
  | .FM => '4'
  | .AM => '5'
  | .RTTY_LSB => '6'
  | .CW_R => '7'
  | .DATA_LSB => '8'
  | .RTTY_USB => '9'
  | .DATA_FM => 'A'
  | .FM_N => 'B'
  | .DATA_USB => 'C'
  | .AM_N => 'D'
  | .C4FM => 'E'

/-- Declaration order of the enum members: the iteration order of
`for mode in Mode` inside `get_mode`. -/
def modeList : List Mode :=
  [.LSB, .USB, .CW, .FM, .AM, .RTTY_LSB, .CW_R, .DATA_LSB,
   .RTTY_USB, .DATA_FM, .FM_N, .DATA_USB, .AM_N, .C4FM]

/-- Result of `get_mode`'s response handling.  The source returns strings:
`.known m` stands for `mode.name`, `.unknownCode c` for `"UNKNOWN(" + c
+ ")"` and `.unknown` for the bare `"UNKNOWN"` of the malformed-response
branch; these renderings are pairwise distinct. -/
inductive ModeResult where
  | known (m : Mode)
  | unknownCode (code : List Char)
  | unknown
deriving DecidableEq

/-- Model of `get_mode`'s decode loop: scan the enum members in declaration
order for one whose wire value equals the response body; an unmatched code
yields the distinguished `UNKNOWN(code)` result.  Total, hence never
raises. -/
def decodeMode (code : List Char) : ModeResult :=
  match modeList.find? (fun m => decide ([modeValue m] = code)) with
  | some m => ModeResult.known m
  | none => ModeResult.unknownCode code

/-! ## Decimal formatting and parsing

`fmtNat w n` models the f-string `f"{n:0wd}"` for a non-negative `n`:
the decimal digits of `n`, left-padded with `'0'` to width `w` (and not
truncated when `n` needs more than `w` digits).  `parseNatOpt` models
Python's `int(s)` on the digit strings this protocol produces: `none` is
the `ValueError` raised on an empty or non-numeric body. -/

/-- ASCII character of a decimal digit. -/
def digitChar : ℕ → Char
  | 0 => '0'
  | 1 => '1'
  | 2 => '2'
  | 3 => '3'
  | 4 => '4'
  | 5 => '5'
  | 6 => '6'
  | 7 => '7'
  | 8 => '8'
  | 9 => '9'
  | _ => '?'

/-- Decimal digits of `n`, least significant first, by repeated division;
the first argument is fuel (any fuel at least `n` is enough). -/
def decDigitsRevAux : ℕ → ℕ → List ℕ
  | _, 0 => []
  | 0, _ + 1 => []
  | fuel + 1, n + 1 => ((n + 1) % 10) :: decDigitsRevAux fuel ((n + 1) / 10)

/-- Decimal digits of `n`, least significant first. -/
def decDigitsRev (n : ℕ) : List ℕ := decDigitsRevAux n n

/-- Decimal character string of `n`, most significant first (the digits of
`str(n)`; empty for `n = 0`, which every use below hides under a nonzero
pad width exactly as `%0wd` does). -/
def decChars (n : ℕ) : List Char := (decDigitsRev n).reverse.map digitChar

/-- Model of `f"{n:0wd}"` for `n : ℕ`. -/
def fmtNat (w n : ℕ) : List Char :=
  List.replicate (w - (decChars n).length) '0' ++ decChars n

/-- Model of `int(s)` on the protocol's response bodies: the numeric value
when `s` is a nonempty all-digit string, `none` (a `ValueError`) otherwise. -/
def parseNatOpt (s : List Char) : Option ℕ :=
  if s.isEmpty then none
  else if s.all Char.isDigit then
    some (s.foldl (fun a c => 10 * a + (c.toNat - 48)) 0)
  else none

/-! ## The serial channel and the session object -/

/-- Model of the open serial handle (`serial.Serial`).  `rx` is the script
of bytes the radio will deliver; once it is exhausted every further read
times out.  `tx` logs each command written, in order. -/
structure SerialPort where
  is_open : Bool
  rx : List Char
  tx : List (List Char)
deriving DecidableEq

/-- Model of the `FT991A` instance: the `serial` attribute, the
`_last_cmd_time` and `_min_cmd_interval` attributes, and the model clock
`now` (the value `time.time()` would return). -/
structure FT991AState where
  serial : Option SerialPort
  last_cmd_time : ℤ
  now : ℤ
  min_cmd_interval : ℤ
deriving DecidableEq

/-- Model of `FT991A.__init__`: no serial handle, `_last_cmd_time = 0.0`,
`_min_cmd_interval = 0.05` s, i.e. 50 ms; the clock starts at `t0`. -/
def init (t0 : ℤ) : FT991AState :=
  { serial := none, last_cmd_time := 0, now := t0, min_cmd_interval := 50 }

/-- Error kinds raised by the session (`ConnectionError` in the source). -/
inductive CatError where
  | connectionError
deriving DecidableEq

/-- Whether `self.serial and self.serial.is_open` holds. -/
def serialIsOpen (st : FT991AState) : Bool :=
  match st.serial with
  | none => false
  | some sp => sp.is_open

/-- Command log of the session's transport (empty when no handle exists). -/
def txLog (st : FT991AState) : List (List Char) :=
  match st.serial with
  | none => []
  | some sp => sp.tx

/-- Rate limiting (lines 141-143 of the source): if less than
`interval` has elapsed since `last`, sleep the remainder; the result is
the clock value at which the write starts. -/
def rateWait (now last interval : ℤ) : ℤ :=
  if now - last < interval then now + (interval - (now - last)) else now

/-- Terminator handling (lines 146-147): append `';'` unless the command
already ends with it. -/
def termCmd (cmd : List Char) : List Char :=
  if cmd.getLast? = some ';' then cmd else cmd ++ [';']

/-- Response accumulation loop (lines 155-162): read one byte at a time,
stopping at the first `';'` or when a read times out (script exhausted);
returns the accumulated response and the remaining script. -/
def readUntilTerm : List Char → List Char × List Char
  | [] => ([], [])
  | c :: rest =>
      if c = ';' then ([c], rest)
      else
        let r := readUntilTerm rest
        (c :: r.1, r.2)

/-- Model of `FT991A._send`: raise `ConnectionError` if no open handle
(before anything is written), rate-limit, write the terminated command,
record the send time, then accumulate the response up to the terminator
or a timeout.  The write/flush/read steps are instantaneous in the model,
so `last_cmd_time` is both the start and the end of the send. -/
def sendCmd (st : FT991AState) (cmd : List Char) :
    Except (CatError × FT991AState) (List Char × FT991AState) :=
  match st.serial with
  | none => Except.error (CatError.connectionError, st)
  | some sp =>
      if sp.is_open then
        let start := rateWait st.now st.last_cmd_time st.min_cmd_interval
        let rd := readUntilTerm sp.rx
        Except.ok (rd.1,
          { st with
              serial := some { sp with tx := sp.tx ++ [termCmd cmd], rx := rd.2 },
              last_cmd_time := start,
              now := start })
      else Except.error (CatError.connectionError, st)

/-! ## Session operations

Each operation mirrors one method of the `FT991A` class.  Getters return
the value together with the updated state; setters (`_set` discards the
response) return just the updated state.  `.error` is a propagating
exception. -/

/-- Response body `resp[2:-1]` (used when the response is known to end
with the terminator). -/
def body2 (resp : List Char) : List Char := (resp.drop 2).dropLast

/-- Response body `resp[3:-1]`. -/
def body3 (resp : List Char) : List Char := (resp.drop 3).dropLast

/-- Shorthand for `resp.startswith(pre) and resp.endswith(';')`. -/
def framedBy (pre resp : List Char) : Prop :=
  pre.isPrefixOf resp = true ∧ resp.getLast? = some ';'

instance (pre resp : List Char) : Decidable (framedBy pre resp) := by
  unfold framedBy; infer_instance

/-- Model of `get_frequency_a`: send `FA;`, parse the 9-digit body, with
`0` for malformed frames and parse failures. -/
def get_frequency_a (st : FT991AState) :
    Except (CatError × FT991AState) (ℕ × FT991AState) :=
  match sendCmd st ['F', 'A', ';'] with
  | Except.error e => Except.error e
  | Except.ok (resp, st') =>
      Except.ok
        (if framedBy ['F', 'A'] resp then (parseNatOpt (body2 resp)).getD 0 else 0,
         st')

/-- Model of `set_frequency_a`: send `f"FA{freq_hz:09d};"`.  The source
performs no range validation. -/
def set_frequency_a (st : FT991AState) (freq_hz : ℕ) :
    Except (CatError × FT991AState) FT991AState :=
  (sendCmd st (['F', 'A'] ++ fmtNat 9 freq_hz ++ [';'])).map Prod.snd

/-- Model of `get_frequency_b`. -/
def get_frequency_b (st : FT991AState) :
    Except (CatError × FT991AState) (ℕ × FT991AState) :=
  match sendCmd st ['F', 'B', ';'] with
  | Except.error e => Except.error e
  | Except.ok (resp, st') =>
      Except.ok
        (if framedBy ['F', 'B'] resp then (parseNatOpt (body2 resp)).getD 0 else 0,
         st')

/-- Model of `set_frequency_b`: send `f"FB{freq_hz:09d};"`; no range
validation. -/
def set_frequency_b (st : FT991AState) (freq_hz : ℕ) :
    Except (CatError × FT991AState) FT991AState :=
  (sendCmd st (['F', 'B'] ++ fmtNat 9 freq_hz ++ [';'])).map Prod.snd

/-- Model of `get_mode`: send `MD0;` and decode the single-character body
via the enum table; malformed frames yield the bare `UNKNOWN`. -/
def get_mode (st : FT991AState) :
    Except (CatError × FT991AState) (ModeResult × FT991AState) :=
  match sendCmd st ['M', 'D', '0', ';'] with
  | Except.error e => Except.error e
  | Except.ok (resp, st') =>
      Except.ok
        (if framedBy ['M', 'D', '0'] resp then decodeMode (body3 resp)
         else ModeResult.unknown,
         st')

/-- Model of `set_mode`: send `f"MD0{mode.value};"`. -/
def set_mode (st : FT991AState) (m : Mode) :
    Except (CatError × FT991AState) FT991AState :=
  (sendCmd st (['M', 'D', '0', modeValue m, ';'])).map Prod.snd

/-- Model of `ptt_on`: send `TX1;`. -/
def ptt_on (st : FT991AState) :
    Except (CatError × FT991AState) FT991AState :=
  (sendCmd st ['T', 'X', '1', ';']).map Prod.snd

/-- Model of `ptt_off`: send `TX0;`. -/
def ptt_off (st : FT991AState) :
    Except (CatError × FT991AState) FT991AState :=
  (sendCmd st ['T', 'X', '0', ';']).map Prod.snd

/-- Model of `is_transmitting`: send `TX;`; the body must differ from
`"0"`. -/
def is_transmitting (st : FT991AState) :
    Except (CatError × FT991AState) (Bool × FT991AState) :=
  match sendCmd st ['T', 'X', ';'] with
  | Except.error e => Except.error e
  | Except.ok (resp, st') =>
      Except.ok
        (if framedBy ['T', 'X'] resp then decide (body2 resp ≠ ['0']) else false,
         st')

/-- Model of `get_s_meter`: send `SM0;`, parse the 3-digit body, with `0`
for malformed frames and parse failures. -/
def get_s_meter (st : FT991AState) :
    Except (CatError × FT991AState) (ℕ × FT991AState) :=
  match sendCmd st ['S', 'M', '0', ';'] with
  | Except.error e => Except.error e
  | Except.ok (resp, st') =>
      Except.ok
        (if framedBy ['S', 'M', '0'] resp then (parseNatOpt (body3 resp)).getD 0
         else 0,
         st')

/-- Model of `get_power_meter`: send `RM1;`. -/
def get_power_meter (st : FT991AState) :
    Except (CatError × FT991AState) (ℕ × FT991AState) :=
  match sendCmd st ['R', 'M', '1', ';'] with
  | Except.error e => Except.error e
  | Except.ok (resp, st') =>
      Except.ok
        (if framedBy ['R', 'M', '1'] resp then (parseNatOpt (body3 resp)).getD 0
         else 0,
         st')

/-- Model of `get_swr_meter`: send `RM2;`. -/
def get_swr_meter (st : FT991AState) :
    Except (CatError × FT991AState) (ℕ × FT991AState) :=
  match sendCmd st ['R', 'M', '2', ';'] with
  | Except.error e => Except.error e
  | Except.ok (resp, st') =>
      Except.ok
        (if framedBy ['R', 'M', '2'] resp then (parseNatOpt (body3 resp)).getD 0
         else 0,
         st')

/-- Model of `get_power_level`: send `PC;`. -/
def get_power_level (st : FT991AState) :
    Except (CatError × FT991AState) (ℕ × FT991AState) :=
  match sendCmd st ['P', 'C', ';'] with
  | Except.error e => Except.error e
  | Except.ok (resp, st') =>
      Except.ok
        (if framedBy ['P', 'C'] resp then (parseNatOpt (body2 resp)).getD 0
         else 0,
         st')

/-- Clamp applied by `set_power_level`: `max(5, min(100, watts))`. -/
def clampWatts (watts : ℤ) : ℤ := max 5 (min 100 watts)

/-- Model of `set_power_level`: clamp the request to `[5, 100]`, then send
`f"PC{watts:03d};"` of the clamped value. -/
def set_power_level (st : FT991AState) (watts : ℤ) :
    Except (CatError × FT991AState) FT991AState :=
  (sendCmd st (['P', 'C'] ++ fmtNat 3 (clampWatts watts).toNat ++ [';'])).map
    Prod.snd

/-- Model of `swap_vfo`: send `SV;`. -/
def swap_vfo (st : FT991AState) :
    Except (CatError × FT991AState) FT991AState :=
  (sendCmd st ['S', 'V', ';']).map Prod.snd

/-- Model of `vfo_a_to_b`: send `AB;`. -/
def vfo_a_to_b (st : FT991AState) :
    Except (CatError × FT991AState) FT991AState :=
  (sendCmd st ['A', 'B', ';']).map Prod.snd

/-- Model of `get_squelch_status`: send `IF;`; with at least 28 response
bytes, byte 23 equals `'1'`. -/
def get_squelch_status (st : FT991AState) :
    Except (CatError × FT991AState) (Bool × FT991AState) :=
  match sendCmd st ['I', 'F', ';'] with
  | Except.error e => Except.error e
  | Except.ok (resp, st') =>
      Except.ok
        (if 28 ≤ resp.length then decide (resp.get? 23 = some '1') else false,
         st')

/-- Model of `get_info`: send `IF;` and return the raw response. -/
def get_info (st : FT991AState) :
    Except (CatError × FT991AState) (List Char × FT991AState) :=
  sendCmd st ['I', 'F', ';']

/-- Model of `get_id`: send `ID;` and return the raw response. -/
def get_id (st : FT991AState) :
    Except (CatError × FT991AState) (List Char × FT991AState) :=
  sendCmd st ['I', 'D', ';']

/-! ## Connection lifecycle -/

/-- Model of `connect`.  `openResult` is what `serial.Serial(...)` yields:
`none` when the constructor raises `SerialException` (caught; `connect`
returns false), `some sp` when a handle is produced.  The handle is then
probed with a frequency read; `connect` returns whether the probe produced
a positive frequency. -/
def connect (st : FT991AState) (openResult : Option SerialPort) :
    Except (CatError × FT991AState) (Bool × FT991AState) :=
  match openResult with
  | none => Except.ok (false, st)
  | some sp =>
      match get_frequency_a { st with serial := some sp } with
      | Except.error e => Except.error e
      | Except.ok (freq, st') => Except.ok (decide (0 < freq), st')

/-- Model of `disconnect`: if a handle exists and is open, close it;
otherwise do nothing.  Total: the source path can only call
`serial.close()`, which never raises. -/
def disconnect (st : FT991AState) : FT991AState :=
  match st.serial with
  | none => st
  | some sp =>
      if sp.is_open then { st with serial := some { sp with is_open := false } }
      else st

/-- Model of `__exit__`: attempt `ptt_off()`, swallowing any exception
(resuming from the state at the raise point), then `disconnect()`. -/
def exitContext (st : FT991AState) : FT991AState :=
  disconnect
    (match ptt_off st with
     | Except.ok st' => st'
     | Except.error e => e.2)

/-! ## The operation alphabet

`RadioOp` enumerates every session operation that performs radio I/O;
`runOp` dispatches to the model of that operation, discarding the returned
value (the state and the error behaviour are what the connection-check
claims are about). -/

/-- Enumeration of the session operations that perform radio I/O. -/
inductive RadioOp where
  | opGetFreqA
  | opSetFreqA (hz : ℕ)
  | opGetFreqB
  | opSetFreqB (hz : ℕ)
  | opGetMode
  | opSetMode (m : Mode)
  | opPttOn
  | opPttOff
  | opIsTransmitting
  | opGetSMeter
  | opGetPowerMeter
  | opGetSwrMeter
  | opGetPowerLevel
  | opSetPowerLevel (watts : ℤ)
  | opSwapVfo
  | opVfoAToB
  | opGetSquelchStatus
  | opGetInfo
  | opGetId
deriving DecidableEq

/-- Run one session operation, keeping only the resulting state. -/
def runOp : RadioOp → FT991AState → Except (CatError × FT991AState) FT991AState
  | RadioOp.opGetFreqA, st => (get_frequency_a st).map Prod.snd
  | RadioOp.opSetFreqA hz, st => set_frequency_a st hz
  | RadioOp.opGetFreqB, st => (get_frequency_b st).map Prod.snd
  | RadioOp.opSetFreqB hz, st => set_frequency_b st hz
  | RadioOp.opGetMode, st => (get_mode st).map Prod.snd
  | RadioOp.opSetMode m, st => set_mode st m
  | RadioOp.opPttOn, st => ptt_on st
  | RadioOp.opPttOff, st => ptt_off st
  | RadioOp.opIsTransmitting, st => (is_transmitting st).map Prod.snd
  | RadioOp.opGetSMeter, st => (get_s_meter st).map Prod.snd
  | RadioOp.opGetPowerMeter, st => (get_power_meter st).map Prod.snd
  | RadioOp.opGetSwrMeter, st => (get_swr_meter st).map Prod.snd
  | RadioOp.opGetPowerLevel, st => (get_power_level st).map Prod.snd
  | RadioOp.opSetPowerLevel w, st => set_power_level st w
  | RadioOp.opSwapVfo, st => swap_vfo st
  | RadioOp.opVfoAToB, st => vfo_a_to_b st
  | RadioOp.opGetSquelchStatus, st => (get_squelch_status st).map Prod.snd
  | RadioOp.opGetInfo, st => (get_info st).map Prod.snd
  | RadioOp.opGetId, st => (get_id st).map Prod.snd

/-- Value returned by a getter, `none` when the call raised. -/
def exceptValue {α : Type} (e : Except (CatError × FT991AState) (α × FT991AState)) :
    Option α :=
  match e with
  | Except.ok (a, _) => some a
  | Except.error _ => none

/-- Connected session template used by concrete scenarios: a fresh
session whose open handle will deliver the script `rx`. -/
def connState (rx : List Char) : FT991AState :=
  { serial := some { is_open := true, rx := rx, tx := [] },
    last_cmd_time := 0, now := 0, min_cmd_interval := 50 }

/-- Session state after one `FA;` send on `connState []` issued at model
time 0: the rate limiter defers the send to t = 50 ms. -/
def rateDemo1 : FT991AState :=
  { serial := some { is_open := true, rx := [], tx := [['F', 'A', ';']] },
    last_cmd_time := 50, now := 50, min_cmd_interval := 50 }

/-- Session state after a second, back-to-back `FA;` send: the rate
limiter defers it to t = 100 ms, 50 ms after the first. -/
def rateDemo2 : FT991AState :=
  { serial := some { is_open := true, rx := [], tx := [['F', 'A', ';'], ['F', 'A', ';']] },
    last_cmd_time := 100, now := 100, min_cmd_interval := 50 }

/-! ## Lemmas about the decimal codec -/

lemma decDigitsRevAux_zero (fuel : ℕ) : decDigitsRevAux fuel 0 = [] := by
  cases fuel <;> rfl

lemma decDigitsRevAux_succ (fuel n : ℕ) :
    decDigitsRevAux (fuel + 1) (n + 1) =
      ((n + 1) % 10) :: decDigitsRevAux fuel ((n + 1) / 10) := rfl

/-- Evaluating the little-endian digit list recovers the number, for any
sufficient fuel. -/
lemma foldr_decDigitsRevAux :
    ∀ fuel n : ℕ, n ≤ fuel →
      List.foldr (fun d acc => 10 * acc + d) 0 (decDigitsRevAux fuel n) = n := by
  intro fuel
  induction fuel with
  | zero =>
      intro n hn
      have : n = 0 := Nat.le_zero.mp hn
      subst this
      rfl
  | succ f ih =>
      intro n hn
      match n with
      | 0 => rfl
      | m + 1 =>
          rw [decDigitsRevAux_succ, List.foldr_cons]
          have hdiv : (m + 1) / 10 ≤ f :=
            Nat.lt_succ_iff.mp
              (Nat.lt_of_lt_of_le (Nat.div_lt_self (Nat.succ_pos m) (by norm_num)) hn)
          rw [ih _ hdiv]
          omega

/-- Every produced digit is below 10. -/
lemma mem_decDigitsRevAux_lt :
    ∀ fuel n d : ℕ, d ∈ decDigitsRevAux fuel n → d < 10 := by
  intro fuel
  induction fuel with
  | zero =>
      intro n d hd
      cases n <;> simp [decDigitsRevAux] at hd
  | succ f ih =>
      intro n d hd
      match n with
      | 0 => simp [decDigitsRevAux] at hd
      | m + 1 =>
          rw [decDigitsRevAux_succ] at hd
          rcases List.mem_cons.mp hd with h | h
          · subst h; exact Nat.mod_lt _ (by norm_num)
          · exact ih _ _ h

/-- The digit list of `n < 10^k` has at most `k` digits. -/
lemma length_decDigitsRevAux :
    ∀ fuel n k : ℕ, n ≤ fuel → n < 10 ^ k →
      (decDigitsRevAux fuel n).length ≤ k := by
  intro fuel
  induction fuel with
  | zero =>
      intro n k hn _
      have : n = 0 := Nat.le_zero.mp hn
      subst this
      simp [decDigitsRevAux]
  | succ f ih =>
      intro n k hn hk
      match n with
      | 0 => simp [decDigitsRevAux]
      | m + 1 =>
          match k with
          | 0 => omega
          | j + 1 =>
              rw [decDigitsRevAux_succ]
              have hdiv : (m + 1) / 10 ≤ f :=
                Nat.lt_succ_iff.mp
                  (Nat.lt_of_lt_of_le (Nat.div_lt_self (Nat.succ_pos m) (by norm_num)) hn)
              have hlt : (m + 1) / 10 < 10 ^ j := by
                have := (Nat.div_lt_iff_lt_mul (by norm_num : 0 < 10)).mpr
                  (by rw [← pow_succ]; exact hk)
                exact this
              simpa using Nat.succ_le_succ (ih _ _ hdiv hlt)

lemma length_decChars (n k : ℕ) (hk : n < 10 ^ k) : (decChars n).length ≤ k := by
  simpa [decChars, decDigitsRev] using
    length_decDigitsRevAux n n k le_rfl hk

lemma digitChar_isDigit (d : ℕ) (hd : d < 10) : (digitChar d).isDigit = true := by
  interval_cases d <;> rfl

lemma digitChar_toNat (d : ℕ) (hd : d < 10) : (digitChar d).toNat = 48 + d := by
  interval_cases d <;> rfl

/-- Width of `f"{n:0wd}"` is exactly `w` when `n < 10^w`. -/
lemma fmtNat_length (w n : ℕ) (hn : n < 10 ^ w) : (fmtNat w n).length = w := by
  have h := length_decChars n w hn
  simp [fmtNat]
  omega

/-- Every character of `f"{n:0wd}"` is a decimal digit. -/
lemma fmtNat_all_digits (w n : ℕ) : (fmtNat w n).all Char.isDigit = true := by
  rw [fmtNat, List.all_append]
  refine Bool.and_eq_true_iff.mpr ⟨?_, ?_⟩
  · rw [List.all_eq_true]
    intro c hc
    rw [List.eq_of_mem_replicate hc]
    rfl
  · rw [List.all_eq_true]
    intro c hc
    rw [decChars] at hc
    rcases List.mem_map.mp hc with ⟨d, hd, rfl⟩
    exact digitChar_isDigit d
      (mem_decDigitsRevAux_lt n n d (by simpa [decDigitsRev] using List.mem_reverse.mp hd))

/-- Folding the parser's accumulator over the character digits recovers
the number. -/
lemma foldl_decChars (n : ℕ) :
    List.foldl (fun a c => 10 * a + (c.toNat - 48)) 0 (decChars n) = n := by
  have hrev : decChars n = ((decDigitsRev n).map digitChar).reverse := by
    rw [decChars, List.map_reverse]
  rw [hrev, List.foldl_reverse, List.foldr_map]
  have : ∀ l : List ℕ, (∀ d ∈ l, d < 10) →
      List.foldr (fun x y => 10 * y + ((digitChar x).toNat - 48)) 0 l =
        List.foldr (fun d acc => 10 * acc + d) 0 l := by
    intro l
    induction l with
    | nil => intro _; rfl
    | cons d rest ih =>
        intro hl
        have hd : d < 10 := hl d (List.mem_cons_self d rest)
        rw [List.foldr_cons, List.foldr_cons, ih fun x hx => hl x (List.mem_cons_of_mem _ hx),
          digitChar_toNat d hd]
        omega
  rw [this _ fun d hd => mem_decDigitsRevAux_lt n n d (by simpa [decDigitsRev] using hd)]
  exact foldr_decDigitsRevAux n n le_rfl

/-- Leading zeros do not change the parsed value when the accumulator
starts at zero. -/
lemma foldl_replicate_zero (k : ℕ) :
    List.foldl (fun a c => 10 * a + (c.toNat - 48)) 0 (List.replicate k '0') = 0 := by
  induction k with
  | zero => rfl
  | succ j ih => simpa [List.replicate_succ] using ih

/-- Round trip: parsing `f"{n:0wd}"` yields `n` again, for `n < 10^w` and
a positive width. -/
lemma parseNatOpt_fmtNat (w n : ℕ) (hw : 0 < w) (hn : n < 10 ^ w) :
    parseNatOpt (fmtNat w n) = some n := by
  have hlen : (fmtNat w n).length = w := fmtNat_length w n hn
  have hne : (fmtNat w n).isEmpty = false := by
    cases h : fmtNat w n with
    | nil => rw [h] at hlen; simp at hlen; omega
    | cons a l => rfl
  rw [parseNatOpt, hne]
  simp only [Bool.false_eq_true, if_false, fmtNat_all_digits w n, if_true]
  rw [fmtNat, List.foldl_append, foldl_replicate_zero, foldl_decChars]

/-! ## Lemmas about the transaction engine -/

/-- With no open handle, `_send` raises `ConnectionError` and the session
state — in particular the command log — is untouched. -/
lemma sendCmd_not_open (st : FT991AState) (c : List Char)
    (h : serialIsOpen st = false) :
    sendCmd st c = Except.error (CatError.connectionError, st) := by
  cases hs : st.serial with
  | none => simp [sendCmd, hs]
  | some sp =>
      have ho : sp.is_open = false := by simpa [serialIsOpen, hs] using h
      simp [sendCmd, hs, ho]

/-- With an open handle, `_send` succeeds: the terminated command is
appended to the log, the response is accumulated up to the terminator or
timeout, and the send time is recorded. -/
lemma sendCmd_open (st : FT991AState) (sp : SerialPort) (c : List Char)
    (hs : st.serial = some sp) (ho : sp.is_open = true) :
    sendCmd st c =
      Except.ok ((readUntilTerm sp.rx).1,
        { st with
            serial := some
              { sp with tx := sp.tx ++ [termCmd c], rx := (readUntilTerm sp.rx).2 },
            last_cmd_time := rateWait st.now st.last_cmd_time st.min_cmd_interval,
            now := rateWait st.now st.last_cmd_time st.min_cmd_interval }) := by
  simp [sendCmd, hs, ho]

/-- The moment the rate limiter releases a send is at least one minimum
interval after the previous send. -/
lemma rateWait_ge (now last interval : ℤ) :
    last + interval ≤ rateWait now last interval := by
  unfold rateWait
  split <;> omega

/-- A successful `_send` records `rateWait` of the pre-state clock as the
new `_last_cmd_time` and preserves `_min_cmd_interval`. -/
lemma sendCmd_ok_times (st : FT991AState) (c r : List Char) (st' : FT991AState)
    (h : sendCmd st c = Except.ok (r, st')) :
    st'.last_cmd_time = rateWait st.now st.last_cmd_time st.min_cmd_interval ∧
    st'.min_cmd_interval = st.min_cmd_interval := by
  cases hs : st.serial with
  | none => rw [sendCmd_not_open st c (by simp [serialIsOpen, hs])] at h; cases h
  | some sp =>
      cases ho : sp.is_open with
      | false => rw [sendCmd_not_open st c (by simp [serialIsOpen, hs, ho])] at h; cases h
      | true =>
          rw [sendCmd_open st sp c hs ho] at h
          cases h
          exact ⟨rfl, rfl⟩

/-- A command already ending in the terminator is sent verbatim. -/
lemma termCmd_concat (l : List Char) : termCmd (l ++ [';']) = l ++ [';'] := by
  simp [termCmd, List.getLast?_concat]

/-- A script with no terminator byte is read in full and the read then
times out. -/
lemma readUntilTerm_no_term (l : List Char) (h : ';' ∉ l) :
    readUntilTerm l = (l, []) := by
  induction l with
  | nil => rfl
  | cons c rest ih =>
      have hc : ¬c = ';' := fun e => h (e ▸ List.mem_cons_self c rest)
      have hr : ';' ∉ rest := fun hm => h (List.mem_cons_of_mem c hm)
      simp [readUntilTerm, hc, ih hr]

/-- A response with no terminator byte never passes the
`startswith/endswith` framing check. -/
lemma not_framedBy_no_term (pre resp : List Char) (h : ';' ∉ resp) :
    ¬ framedBy pre resp := by
  rintro ⟨-, hlast⟩
  exact h (List.mem_of_mem_getLast? hlast)

/-! ## Claim C1 -/

/-- C1 (counterexample): on a freshly connected session with an empty
command log, `disconnect()` closes the transport while writing nothing at
all to the serial channel — in particular it does not attempt the PTT-off
command before closing, refuting the claim that every `disconnect()` call
first sends PTT-off.  (The PTT-off-then-close sequence lives in
`__exit__`, not in `disconnect`.) -/
theorem c1_disconnect_sends_no_ptt_off :
    serialIsOpen (disconnect (connState [])) = false ∧
    txLog (disconnect (connState [])) = [] := by
  constructor <;> rfl

/-- C1 (amended): the context-manager exit `__exit__` first attempts the
PTT-off transaction, suppresses any exception it raises, and then calls
`disconnect()`; afterwards the transport is never open — even when
`ptt_off` raised — and when the session was open the wire command
`TX0;` was sent before closing.  `disconnect()` itself closes the
transport without sending PTT-off. -/
theorem c1_exit_deasserts_then_closes (st : FT991AState) :
    serialIsOpen (exitContext st) = false ∧
    (serialIsOpen st = true →
      txLog (exitContext st) = txLog st ++ [['T', 'X', '0', ';']]) := by
  cases hs : st.serial with
  | none =>
      rw [exitContext, ptt_off, sendCmd_not_open st _ (by simp [serialIsOpen, hs])]
      constructor
      · simp [Except.map, disconnect, serialIsOpen, hs]
      · intro h; rw [serialIsOpen, hs] at h; cases h
  | some sp =>
      cases ho : sp.is_open with
      | false =>
          rw [exitContext, ptt_off, sendCmd_not_open st _ (by simp [serialIsOpen, hs, ho])]
          constructor
          · simp [Except.map, disconnect, serialIsOpen, hs, ho]
          · intro h; simp [serialIsOpen, hs, ho] at h
      | true =>
          rw [exitContext, ptt_off, sendCmd_open st sp _ hs ho]
          have hterm : termCmd ['T', 'X', '0', ';'] = ['T', 'X', '0', ';'] := rfl
          constructor
          · simp [Except.map, disconnect, serialIsOpen, ho]
          · intro _
            simp [Except.map, disconnect, txLog, hs, ho, hterm]

/-- C1 (witness for the amended claim), at a concrete open session with an
empty log: after `__exit__` the transport is closed and exactly the
PTT-off command `TX0;` was written. -/
theorem c1_exit_deasserts_then_closes_witness :
    serialIsOpen (exitContext (connState [])) = false ∧
    txLog (exitContext (connState [])) = [['T', 'X', '0', ';']] :=
  ⟨(c1_exit_deasserts_then_closes (connState [])).1,
   (c1_exit_deasserts_then_closes (connState [])).2 rfl⟩

/-! ## Claim C2 -/

/-- C2 (counterexample): a `get_s_meter` transaction whose transport
delivers the digits `SM0042` but times out before the terminator returns
the plain value `0` — literally the same value as a successful zero
reading of `SM0000;` — and a frequency read that receives the digits of
`FA014074000` without the terminator also returns `0`.  There is no
distinguished timeout outcome: a timed-out meter read is silently
reported as signal level 0, refuting the claim. -/
theorem c2_timeout_indistinguishable_from_zero :
    exceptValue (get_s_meter (connState ['S', 'M', '0', '0', '4', '2'])) = some 0 ∧
    exceptValue (get_s_meter (connState ['S', 'M', '0', '0', '0', '0', ';'])) = some 0 ∧
    exceptValue
        (get_frequency_a
          (connState ['F', 'A', '0', '1', '4', '0', '7', '4', '0', '0', '0'])) =
      some 0 := by
  refine ⟨?_, ?_, ?_⟩ <;> rfl

/-- C2 (amended): when the transport times out before a terminator byte is
observed, every numeric getter — S-meter, both VFO frequencies, power
meter, SWR meter and power level — returns the plain value `0`, of the
same type as (and equal to) a genuine zero reading; a response stream
that delivers digits but times out before the terminator is also
reported as `0`, not as the parsed value and not as a distinguished
timeout outcome. -/
theorem c2_timeout_reads_zero (st : FT991AState) (sp : SerialPort)
    (hs : st.serial = some sp) (ho : sp.is_open = true) (hterm : ';' ∉ sp.rx) :
    exceptValue (get_s_meter st) = some 0 ∧
    exceptValue (get_frequency_a st) = some 0 ∧
    exceptValue (get_frequency_b st) = some 0 ∧
    exceptValue (get_power_meter st) = some 0 ∧
    exceptValue (get_swr_meter st) = some 0 ∧
    exceptValue (get_power_level st) = some 0 := by
  have hread := readUntilTerm_no_term sp.rx hterm
  refine ⟨?_, ?_, ?_, ?_, ?_, ?_⟩
  · rw [get_s_meter, sendCmd_open st sp _ hs ho, hread]
    simp [exceptValue, if_neg (not_framedBy_no_term ['S', 'M', '0'] sp.rx hterm)]
  · rw [get_frequency_a, sendCmd_open st sp _ hs ho, hread]
    simp [exceptValue, if_neg (not_framedBy_no_term ['F', 'A'] sp.rx hterm)]
  · rw [get_frequency_b, sendCmd_open st sp _ hs ho, hread]
    simp [exceptValue, if_neg (not_framedBy_no_term ['F', 'B'] sp.rx hterm)]
  · rw [get_power_meter, sendCmd_open st sp _ hs ho, hread]
    simp [exceptValue, if_neg (not_framedBy_no_term ['R', 'M', '1'] sp.rx hterm)]
  · rw [get_swr_meter, sendCmd_open st sp _ hs ho, hread]
    simp [exceptValue, if_neg (not_framedBy_no_term ['R', 'M', '2'] sp.rx hterm)]
  · rw [get_power_level, sendCmd_open st sp _ hs ho, hread]
    simp [exceptValue, if_neg (not_framedBy_no_term ['P', 'C'] sp.rx hterm)]

/-- C2 (witness for the amended claim) at a session whose transport
delivers `SM0042` and then times out: all six numeric getters report 0. -/
theorem c2_timeout_reads_zero_witness :
    exceptValue (get_s_meter (connState ['S', 'M', '0', '0', '4', '2'])) = some 0 ∧
    exceptValue (get_frequency_a (connState ['S', 'M', '0', '0', '4', '2'])) =
      some 0 ∧
    exceptValue (get_frequency_b (connState ['S', 'M', '0', '0', '4', '2'])) =
      some 0 ∧
    exceptValue (get_power_meter (connState ['S', 'M', '0', '0', '4', '2'])) =
      some 0 ∧
    exceptValue (get_swr_meter (connState ['S', 'M', '0', '0', '4', '2'])) =
      some 0 ∧
    exceptValue (get_power_level (connState ['S', 'M', '0', '0', '4', '2'])) =
      some 0 :=
  c2_timeout_reads_zero (connState ['S', 'M', '0', '0', '4', '2'])
    { is_open := true, rx := ['S', 'M', '0', '0', '4', '2'], tx := [] }
    rfl rfl (by decide)

/-! ## Claim C3 -/

/-- C3 (counterexample): at `hz = 500000000`, which is outside the range
`[30000, 470000000]`, `set_frequency_a` does not fail at all: it returns
normally (`toOption` is `some`) and the bytes `FA500000000;` are written
to the serial channel.  The source performs no range check, refuting both
the `ValueError` and the no-bytes-written parts of the claim. -/
theorem c3_out_of_range_is_sent :
    (set_frequency_a (connState []) 500000000).toOption.map txLog =
      some [['F', 'A', '5', '0', '0', '0', '0', '0', '0', '0', '0', ';']] := by
  rfl

/-- C3 (amended): `set_frequency_a` and `set_frequency_b` perform no range
validation whatsoever: for every non-negative integer `hz`, on an open
session the call succeeds (no `ValueError`) and writes exactly
`FA`/`FB` followed by `f"{hz:09d}"` and the terminator to the serial
channel. -/
theorem c3_no_range_check (hz : ℕ) (st : FT991AState) (sp : SerialPort)
    (hs : st.serial = some sp) (ho : sp.is_open = true) :
    set_frequency_a st hz =
      Except.ok
        { st with
            serial := some
              { sp with tx := sp.tx ++ [['F', 'A'] ++ fmtNat 9 hz ++ [';']],
                        rx := (readUntilTerm sp.rx).2 },
            last_cmd_time := rateWait st.now st.last_cmd_time st.min_cmd_interval,
            now := rateWait st.now st.last_cmd_time st.min_cmd_interval } ∧
    set_frequency_b st hz =
      Except.ok
        { st with
            serial := some
              { sp with tx := sp.tx ++ [['F', 'B'] ++ fmtNat 9 hz ++ [';']],
                        rx := (readUntilTerm sp.rx).2 },
            last_cmd_time := rateWait st.now st.last_cmd_time st.min_cmd_interval,
            now := rateWait st.now st.last_cmd_time st.min_cmd_interval } := by
  constructor
  · rw [set_frequency_a, sendCmd_open st sp _ hs ho]
    rw [show ['F', 'A'] ++ fmtNat 9 hz ++ [';'] = (['F', 'A'] ++ fmtNat 9 hz) ++ [';'] by
      simp, termCmd_concat]
    rfl
  · rw [set_frequency_b, sendCmd_open st sp _ hs ho]
    rw [show ['F', 'B'] ++ fmtNat 9 hz ++ [';'] = (['F', 'B'] ++ fmtNat 9 hz) ++ [';'] by
      simp, termCmd_concat]
    rfl

/-- C3 (witness for the amended claim) at the out-of-range input
`hz = 500000000` on a fresh open session. -/
theorem c3_no_range_check_witness :
    set_frequency_a (connState []) 500000000 =
      Except.ok
        { connState [] with
            serial := some
              { is_open := true, rx := [],
                tx := [['F', 'A'] ++ fmtNat 9 500000000 ++ [';']] },
            last_cmd_time := 50, now := 50 } :=
  (c3_no_range_check 500000000 (connState [])
    { is_open := true, rx := [], tx := [] } rfl rfl).1

/-! ## Claim C4 -/

/-- C4: for every mode enumerant `m`, decoding the wire code produced by
encoding `m` yields `m` again — the fixed table mapping enumerants to
single-character wire codes is inverted exactly by the decode loop — and
running the full `get_mode` pipeline on the response
`MD0` + `encodeMode(m)` + `;` returns `m` (i.e. the result standing for
the string `m.name`). -/
theorem c4_mode_round_trip (m : Mode) :
    decodeMode [modeValue m] = ModeResult.known m ∧
    exceptValue (get_mode (connState (['M', 'D', '0'] ++ [modeValue m] ++ [';']))) =
      some (ModeResult.known m) := by
  cases m <;> exact ⟨rfl, rfl⟩

/-! ## Claim C5 -/

/-- C5: the constructor configures a minimum inter-command interval of
50 ms, and for any two consecutive transactions on the same session the
gap between the end of transaction `n`'s send (the recorded
`_last_cmd_time`) and the start of transaction `n+1`'s send (the next
recorded `_last_cmd_time`; in the model the send instant) is at least
`_min_cmd_interval` — for any second-call state whose session timing
fields are those left by the first transaction, so in particular for
back-to-back calls with no caller-side delay. -/
theorem c5_rate_limit_gap :
    (∀ t0 : ℤ, (init t0).min_cmd_interval = 50) ∧
    ∀ (st1 st2 : FT991AState) (c1 c2 r1 r2 : List Char) (st1' st2' : FT991AState),
      sendCmd st1 c1 = Except.ok (r1, st1') →
      st2.last_cmd_time = st1'.last_cmd_time →
      st2.min_cmd_interval = st1'.min_cmd_interval →
      sendCmd st2 c2 = Except.ok (r2, st2') →
      st1'.last_cmd_time + st1'.min_cmd_interval ≤ st2'.last_cmd_time := by
  constructor
  · intro t0; rfl
  · intro st1 st2 c1 c2 r1 r2 st1' st2' _ hlast hmin h2
    obtain ⟨ht, _⟩ := sendCmd_ok_times st2 c2 r2 st2' h2
    rw [ht, hlast, hmin]
    exact rateWait_ge st2.now st1'.last_cmd_time st1'.min_cmd_interval

/-- C5 (witness): two back-to-back `FA;` sends on a fresh open session
with no caller delay: the first send is stamped at t = 50 ms and the
second at t = 100 ms, a gap of exactly the 50 ms minimum interval. -/
theorem c5_rate_limit_gap_witness :
    rateDemo1.last_cmd_time + rateDemo1.min_cmd_interval ≤ rateDemo2.last_cmd_time :=
  c5_rate_limit_gap.2 (connState []) rateDemo1 ['F', 'A', ';'] ['F', 'A', ';']
    [] [] rateDemo1 rateDemo2 rfl rfl rfl rfl

/-! ## Claim C6 -/

/-- C6: for every integer `watts`, `set_power_level` sends exactly the
wire bytes `PC` followed by the 3-character zero-padded decimal encoding
of `watts` clamped to `[5, 100]`, followed by `;`: the clamped value lies
in `[5, 100]`, its encoding is exactly 3 decimal digits and parses back
to the clamped value (not the raw caller input), and on an open session
exactly that command is appended to the channel log. -/
theorem c6_power_level_clamped (watts : ℤ) :
    5 ≤ clampWatts watts ∧
    clampWatts watts ≤ 100 ∧
    (fmtNat 3 (clampWatts watts).toNat).length = 3 ∧
    parseNatOpt (fmtNat 3 (clampWatts watts).toNat) = some (clampWatts watts).toNat ∧
    ∀ (st : FT991AState) (sp : SerialPort),
      st.serial = some sp → sp.is_open = true →
      set_power_level st watts =
        Except.ok
          { st with
              serial := some
                { sp with
                    tx := sp.tx ++
                      [['P', 'C'] ++ fmtNat 3 (clampWatts watts).toNat ++ [';']],
                    rx := (readUntilTerm sp.rx).2 },
              last_cmd_time := rateWait st.now st.last_cmd_time st.min_cmd_interval,
              now := rateWait st.now st.last_cmd_time st.min_cmd_interval } := by
  have h5 : 5 ≤ clampWatts watts := le_max_left 5 (min 100 watts)
  have h100 : clampWatts watts ≤ 100 :=
    max_le (by norm_num) (min_le_left 100 watts)
  have hlt : (clampWatts watts).toNat < 10 ^ 3 := by omega
  refine ⟨h5, h100, fmtNat_length 3 _ hlt, parseNatOpt_fmtNat 3 _ (by norm_num) hlt,
    ?_⟩
  intro st sp hs ho
  rw [set_power_level, sendCmd_open st sp _ hs ho]
  rw [show ['P', 'C'] ++ fmtNat 3 (clampWatts watts).toNat ++ [';'] =
      (['P', 'C'] ++ fmtNat 3 (clampWatts watts).toNat) ++ [';'] by simp,
    termCmd_concat]
  rfl

/-- C6 (witness): `set_power_level(150)` on a fresh open session writes
exactly `PC100;` — the encoding of the clamped maximum 100, not of the
raw caller input 150. -/
theorem c6_power_level_clamped_witness :
    clampWatts 150 = 100 ∧
    ['P', 'C'] ++ fmtNat 3 (clampWatts 150).toNat ++ [';'] =
      ['P', 'C', '1', '0', '0', ';'] ∧
    set_power_level (connState []) 150 =
      Except.ok
        { connState [] with
            serial := some
              { is_open := true, rx := [], tx := [['P', 'C', '1', '0', '0', ';']] },
            last_cmd_time := 50, now := 50 } :=
  ⟨by decide, by decide,
   (c6_power_level_clamped 150).2.2.2.2 (connState [])
     { is_open := true, rx := [], tx := [] } rfl rfl⟩

/-! ## Claim C7 -/

/-- C7: for every integer `hz` in `[30000, 470000000]` the frequency-set
wire string is `FA` followed by exactly 9 ASCII decimal digits equal to
`hz` zero-padded, followed by `;` — the encoding has length 9, is all
digits, and parses back to `hz` — and exactly that command is what an
open session writes; moreover, running `get_frequency_a` on the concrete
response `FA014074000;` decodes the body `014074000` to the integer
`14074000`. -/
theorem c7_frequency_encoding :
    (∀ hz : ℕ, 30000 ≤ hz → hz ≤ 470000000 →
      (fmtNat 9 hz).length = 9 ∧
      (fmtNat 9 hz).all Char.isDigit = true ∧
      parseNatOpt (fmtNat 9 hz) = some hz ∧
      ∀ (st : FT991AState) (sp : SerialPort),
        st.serial = some sp → sp.is_open = true →
        set_frequency_a st hz =
          Except.ok
            { st with
                serial := some
                  { sp with tx := sp.tx ++ [['F', 'A'] ++ fmtNat 9 hz ++ [';']],
                            rx := (readUntilTerm sp.rx).2 },
                last_cmd_time := rateWait st.now st.last_cmd_time st.min_cmd_interval,
                now := rateWait st.now st.last_cmd_time st.min_cmd_interval }) ∧
    exceptValue
        (get_frequency_a
          (connState ['F', 'A', '0', '1', '4', '0', '7', '4', '0', '0', '0', ';'])) =
      some 14074000 := by
  constructor
  · intro hz h30 h470
    have hlt : hz < 10 ^ 9 := by omega
    refine ⟨fmtNat_length 9 hz hlt, fmtNat_all_digits 9 hz,
      parseNatOpt_fmtNat 9 hz (by norm_num) hlt, ?_⟩
    intro st sp hs ho
    rw [set_frequency_a, sendCmd_open st sp _ hs ho]
    rw [show ['F', 'A'] ++ fmtNat 9 hz ++ [';'] =
        (['F', 'A'] ++ fmtNat 9 hz) ++ [';'] by simp, termCmd_concat]
    rfl
  · rfl

/-- C7 (witness) at `hz = 14074000`: the encoding is `014074000`, the
full wire string is `FA014074000;`, and the body parses back to
`14074000`. -/
theorem c7_frequency_encoding_witness :
    (fmtNat 9 14074000).length = 9 ∧
    parseNatOpt (fmtNat 9 14074000) = some 14074000 ∧
    ['F', 'A'] ++ fmtNat 9 14074000 ++ [';'] =
      ['F', 'A', '0', '1', '4', '0', '7', '4', '0', '0', '0', ';'] ∧
    parseNatOpt ['0', '1', '4', '0', '7', '4', '0', '0', '0'] = some 14074000 :=
  ⟨(c7_frequency_encoding.1 14074000 (by decide) (by decide)).1,
   (c7_frequency_encoding.1 14074000 (by decide) (by decide)).2.2.1,
   by decide, by decide⟩

/-! ## Claim C8 -/

/-- C8: mode decoding is total (it never raises): for every
single-character wire code `c`, either `c` appears in the fixed mode
table and the corresponding enumerant is returned, or the distinguished
unknown-mode result carrying `c` is returned; in particular decoding
`Z` yields `UNKNOWN(Z)` — not an exception — and decoding `C` yields
`DATA_USB`. -/
theorem c8_decode_never_raises :
    (∀ c : Char,
      (∃ m : Mode, decodeMode [c] = ModeResult.known m ∧ modeValue m = c) ∨
      decodeMode [c] = ModeResult.unknownCode [c]) ∧
    decodeMode ['Z'] = ModeResult.unknownCode ['Z'] ∧
    decodeMode ['C'] = ModeResult.known Mode.DATA_USB := by
  refine ⟨?_, rfl, rfl⟩
  intro c
  cases h : modeList.find? (fun m => decide ([modeValue m] = [c])) with
  | none => right; unfold decodeMode; rw [h]
  | some m =>
      left
      refine ⟨m, by unfold decodeMode; rw [h], ?_⟩
      simpa using List.find?_some h

/-! ## Claim C9 -/

/-- C9: when the transport opens successfully but the liveness frequency
probe never sees a terminator within the deadline (so no positive
frequency is obtained), `connect` returns `false` — it does not raise —
and a subsequent `disconnect` completes (it is a total function in the
model, mirroring that its only effect is the never-raising
`serial.close()`), leaving the transport closed. -/
theorem c9_connect_probe_failure (st : FT991AState) (sp : SerialPort)
    (ho : sp.is_open = true) (hterm : ';' ∉ sp.rx) :
    ∃ st' : FT991AState,
      connect st (some sp) = Except.ok (false, st') ∧
      serialIsOpen (disconnect st') = false := by
  have hfa :
      get_frequency_a { st with serial := some sp } =
        Except.ok (0,
          { st with
              serial := some
                { sp with tx := sp.tx ++ [termCmd ['F', 'A', ';']],
                          rx := (readUntilTerm sp.rx).2 },
              last_cmd_time := rateWait st.now st.last_cmd_time st.min_cmd_interval,
              now := rateWait st.now st.last_cmd_time st.min_cmd_interval }) := by
    rw [get_frequency_a,
      sendCmd_open { st with serial := some sp } sp ['F', 'A', ';'] rfl ho,
      readUntilTerm_no_term sp.rx hterm]
    simp [if_neg (not_framedBy_no_term ['F', 'A'] sp.rx hterm)]
  refine ⟨{ st with
      serial := some
        { sp with tx := sp.tx ++ [termCmd ['F', 'A', ';']],
                  rx := (readUntilTerm sp.rx).2 },
      last_cmd_time := rateWait st.now st.last_cmd_time st.min_cmd_interval,
      now := rateWait st.now st.last_cmd_time st.min_cmd_interval }, ?_, ?_⟩
  · simp only [connect]
    rw [hfa]
    rfl
  · simp [disconnect, serialIsOpen, ho]

/-- C9 (witness): connecting over a transport that opens and then stays
silent returns `false`, and disconnecting afterwards leaves the transport
closed. -/
theorem c9_connect_probe_failure_witness :
    ∃ st' : FT991AState,
      connect (init 0) (some { is_open := true, rx := [], tx := [] }) =
        Except.ok (false, st') ∧
      serialIsOpen (disconnect st') = false :=
  c9_connect_probe_failure (init 0) { is_open := true, rx := [], tx := [] }
    rfl (by decide)

/-! ## Claim C10 -/

/-- C10: every session operation that performs radio I/O — every getter
and setter, PTT on/off, swap VFO, copy VFO — raises `ConnectionError`
when no serial connection is open (the handle is absent or closed), and
it does so before any bytes are written: the error carries the session
state unchanged, command log included. -/
theorem c10_requires_open_connection (op : RadioOp) (st : FT991AState)
    (h : serialIsOpen st = false) :
    runOp op st = Except.error (CatError.connectionError, st) := by
  have hsend : ∀ c, sendCmd st c = Except.error (CatError.connectionError, st) :=
    fun c => sendCmd_not_open st c h
  cases op <;>
    simp [runOp, get_frequency_a, set_frequency_a, get_frequency_b, set_frequency_b,
      get_mode, set_mode, ptt_on, ptt_off, is_transmitting, get_s_meter,
      get_power_meter, get_swr_meter, get_power_level, set_power_level, swap_vfo,
      vfo_a_to_b, get_squelch_status, get_info, get_id, hsend, Except.map]

/-- C10 (witness): a frequency read on a never-connected session raises
`ConnectionError` with the state unchanged. -/
theorem c10_requires_open_connection_witness :
    runOp RadioOp.opGetFreqA (init 0) =
      Except.error (CatError.connectionError, init 0) :=
  c10_requires_open_connection RadioOp.opGetFreqA (init 0) rfl

end FT991A
